import Mathlib

/-
  Verification development for the libbitcoin-network peer-to-peer engine.

  Shallow embedding of the components the claims concern, translated from
  the C++ sources:
  - settings address filters            (settings.cpp: disabled, insufficient,
                                         unsupported, blacklisted, whitelisted,
                                         peered, excluded)
  - p2p supervisor nonce and counters   (p2p.cpp: store_nonce, is_loopback,
                                         count_channel, uncount_channel)
  - per-channel message distributor     (distributor_peer.hpp: do_notify;
                                         pump.cpp: notify dispatch)
  - peer channel send path              (channel_peer.hpp: send, handle_send)
  - ping protocol heartbeat             (protocol_ping_60001.cpp: handle_timer)
  - connector race                      (connector.cpp: connect, handle_resolve,
                                         do_handle_connect, handle_timer, stop)
  - outbound batch connect              (session_outbound.cpp: handle_batch)
  - manual session retry loop           (session_manual.cpp: connect cycle)

  Machine integers (size_t / uint64_t counters) are modelled as Nat with
  explicit reduction modulo 2^64 where the code can wrap.
-/

namespace BitcoinNetwork

/-- Error codes of the network error taxonomy (the subset the embedded
components produce). -/
inductive Code where
  | success
  | bad_alloc
  | channel_stopped
  | channel_timeout
  | channel_overflow
  | service_stopped
  | accept_failed
  | address_in_use
  | invalid_message
  | unknown_message
  | protocol_violation
  | connect_failed
  | resolve_failed
  deriving DecidableEq

/-- Capacity of a 64-bit counter, for explicit wrap arithmetic. -/
def two64 : Nat := 2 ^ 64

/-- Two's-complement decrement of a 64-bit counter (the wrap that `--x` on a
size_t would perform at zero). -/
def dec64 (x : Nat) : Nat := (x + (two64 - 1)) % two64

/-! ## Settings address filters (settings.cpp) -/

/-- An address item `(ip, port, services, timestamp)`. The ip is modelled as a
family flag (v6) plus a numeric value, which is all the filters inspect. -/
structure AddressItem where
  v6 : Bool
  ip : Nat
  port : Nat
  services : Nat
  timestamp : Nat
  deriving DecidableEq

/-- Modelled from the spec: the `specified` primitive of the `excluded`
filter (bc::system `is_specified`, external to this repository): an address
with a nonzero ip and a nonzero port. -/
def is_specified (item : AddressItem) : Bool :=
  item.ip != 0 && item.port != 0

/-- Membership of an address item in a configured authority list
(`system::contains`), by ip family, ip and port. -/
def contains_item (l : List AddressItem) (item : AddressItem) : Bool :=
  l.any (fun a => a.v6 == item.v6 && a.ip == item.ip && a.port == item.port)

/-- The subset of `settings` the address filters read. -/
structure NetSettings where
  enable_ipv6 : Bool
  services_minimum : Nat
  invalid_services : Nat
  blacklists : List AddressItem
  whitelists : List AddressItem
  friends : List AddressItem
  deriving DecidableEq

/-- settings::disabled: not enable_ipv6 and the address is v6. -/
def NetSettings.disabled (s : NetSettings) (item : AddressItem) : Bool :=
  !s.enable_ipv6 && item.v6

/-- settings::insufficient: the services lack a required minimum bit. -/
def NetSettings.insufficient (s : NetSettings) (item : AddressItem) : Bool :=
  (item.services &&& s.services_minimum) != s.services_minimum

/-- settings::unsupported: some invalid_services bit is set. -/
def NetSettings.unsupported (s : NetSettings) (item : AddressItem) : Bool :=
  (item.services &&& s.invalid_services) != 0

/-- settings::blacklisted: the item is in the blacklists. -/
def NetSettings.blacklisted (s : NetSettings) (item : AddressItem) : Bool :=
  contains_item s.blacklists item

/-- settings::whitelisted: the whitelists are empty or contain the item. -/
def NetSettings.whitelisted (s : NetSettings) (item : AddressItem) : Bool :=
  s.whitelists.isEmpty || contains_item s.whitelists item

/-- settings::peered: the item is in the friends list. -/
def NetSettings.peered (s : NetSettings) (item : AddressItem) : Bool :=
  contains_item s.friends item

/-- settings::excluded: the disjunction of the seven filter conditions, in
source order. -/
def NetSettings.excluded (s : NetSettings) (item : AddressItem) : Bool :=
  !is_specified item
    || s.disabled item
    || s.insufficient item
    || s.unsupported item
    || s.peered item
    || s.blacklisted item
    || !s.whitelisted item

/-! ## p2p supervisor: loopback nonces and channel counting (p2p.cpp) -/

/-- The channel attributes the supervisor reads: its own nonce, direction,
quiet flag, the nonce of the received version message, and its authority
(canonical remote endpoint identity, modelled as a number). -/
structure Channel where
  nonce : Nat
  inbound : Bool
  quiet : Bool
  peer_version_nonce : Nat
  authority : Nat
  deriving DecidableEq

/-- The supervisor state the embedded operations touch: the closed latch, the
enable_loopback setting, the nonce set, the two 64-bit channel counters and
the hosts reservation set. -/
structure P2P where
  closed : Bool
  enable_loopback : Bool
  nonces : List Nat
  inbound_channel_count : Nat
  total_channel_count : Nat
  reserved : List Nat
  deriving DecidableEq

/-- p2p::store_nonce: skipped (returning true) when enable_loopback is set or
the channel is inbound; otherwise inserts the channel nonce, failing when it
is already present. -/
def P2P.store_nonce (s : P2P) (c : Channel) : Bool × P2P :=
  if s.enable_loopback || c.inbound then (true, s)
  else if s.nonces.contains c.nonce then (false, s)
  else (true, { s with nonces := c.nonce :: s.nonces })

/-- p2p::is_loopback: false when enable_loopback is set or the channel is NOT
inbound; otherwise looks the received version nonce up in the nonce set. -/
def P2P.is_loopback (s : P2P) (c : Channel) : Bool :=
  if s.enable_loopback || !c.inbound then false
  else s.nonces.contains c.peer_version_nonce

/-- Modelled from the spec: hosts.reserve (the host pool is external to the
embedded core): marks the authority, failing if it is already reserved. -/
def hosts_reserve (s : P2P) (a : Nat) : Bool × P2P :=
  if s.reserved.contains a then (false, s)
  else (true, { s with reserved := a :: s.reserved })

/-- Modelled from the spec: hosts.unreserve: removes the authority mark. -/
def hosts_unreserve (s : P2P) (a : Nat) : P2P :=
  { s with reserved := s.reserved.erase a }

/-- p2p::count_channel: verifies not closed, not loopback, no counter
overflow (is_zero(add1(count)) on the 64-bit counters), and reserves the
authority; then bumps the inbound counter (inbound channels) and the total
counter (non-quiet channels). Returns the specific error code on the first
failing check, leaving the state unchanged. -/
def P2P.count_channel (s : P2P) (c : Channel) : Code × P2P :=
  if s.closed then (.service_stopped, s)
  else if s.is_loopback c then (.accept_failed, s)
  else if c.inbound && (s.inbound_channel_count + 1) % two64 == 0 then
    (.channel_overflow, s)
  else if !c.quiet && (s.total_channel_count + 1) % two64 == 0 then
    (.channel_overflow, s)
  else
    match hosts_reserve s c.authority with
    | (false, s1) => (.address_in_use, s1)
    | (true, s1) =>
      let s2 := if c.inbound then
        { s1 with inbound_channel_count :=
            (s1.inbound_channel_count + 1) % two64 } else s1
      let s3 := if !c.quiet then
        { s2 with total_channel_count :=
            (s2.total_channel_count + 1) % two64 } else s2
      (.success, s3)

/-- p2p::uncount_channel: always unreserves the authority; then returns early
(logging underflow) if the inbound counter is zero for an inbound channel, or
the total counter is zero for a non-quiet channel; otherwise decrements the
applicable counters. -/
def P2P.uncount_channel (s : P2P) (c : Channel) : P2P :=
  let s0 := hosts_unreserve s c.authority
  if c.inbound && s0.inbound_channel_count == 0 then s0
  else if !c.quiet && s0.total_channel_count == 0 then s0
  else
    let s1 := if c.inbound then
      { s0 with inbound_channel_count := dec64 s0.inbound_channel_count }
      else s0
    if !c.quiet then
      { s1 with total_channel_count := dec64 s1.total_channel_count }
      else s1

/-- A supervisor counting operation: channel registration or deregistration. -/
inductive P2POp where
  | count (c : Channel)
  | uncount (c : Channel)

/-- Apply one counting operation to the supervisor state. -/
def P2P.applyOp (s : P2P) : P2POp → P2P
  | .count c => (s.count_channel c).2
  | .uncount c => s.uncount_channel c

/-- Apply a sequence of counting operations. -/
def P2P.runOps (s : P2P) (ops : List P2POp) : P2P :=
  ops.foldl P2P.applyOp s

/-! ## Per-channel distributor (distributor_peer.hpp / pump.cpp) -/

/-- The closed enumeration of peer message identifiers dispatched by the
distributor, plus the `unknown` sentinel of the heading parser. -/
inductive Identifier where
  | address
  | alert
  | block
  | bloom_filter_add
  | bloom_filter_clear
  | bloom_filter_load
  | client_filter
  | client_filter_checkpoint
  | client_filter_headers
  | compact_block
  | compact_transactions
  | fee_filter
  | get_address
  | get_blocks
  | get_client_filter_checkpoint
  | get_client_filter_headers
  | get_client_filters
  | get_compact_transactions
  | get_data
  | get_headers
  | headers
  | inventory
  | memory_pool
  | merkle_block
  | not_found
  | ping
  | pong
  | reject
  | send_address_v2
  | send_compact
  | send_headers
  | transaction
  | version
  | version_acknowledge
  | witness_tx_id_relay
  | unknown
  deriving DecidableEq

/-- Observable outcome of a distributor notify call: the returned code,
whether deserialization was attempted, and the fan-out notifications
delivered as (handler, code, message) triples. Messages are modelled by a
numeric value; handlers by a numeric key. -/
structure NotifyResult where
  result : Code
  deserialized : Bool
  notifications : List (Nat × Code × Nat)
  deriving DecidableEq

/-- distributor_peer::do_notify: when the typed subscriber is non-empty,
deserialize the payload (returning invalid_message when that fails) and fan
out (success, message) to every subscriber; when it is empty, skip
deserialization and return success. -/
def do_notify (subscriber : List Nat) (deserialize : List Nat → Option Nat)
    (data : List Nat) : NotifyResult :=
  if !subscriber.isEmpty then
    match deserialize data with
    | none => ⟨.invalid_message, true, []⟩
    | some m => ⟨.success, true, subscriber.map (fun h => (h, Code.success, m))⟩
  else ⟨.success, false, []⟩

/-- distributor notify dispatch (pump::notify switch): the unknown identifier
yields unknown_message; every listed identifier routes to do_notify with that
identifier's subscriber and typed deserializer (given the protocol version). -/
def distributor_notify (subs : Identifier → List Nat)
    (des : Identifier → Nat → List Nat → Option Nat)
    (id : Identifier) (version : Nat) (data : List Nat) : NotifyResult :=
  if id = .unknown then ⟨.unknown_message, false, []⟩
  else do_notify (subs id) (des id version) data

/-! ## Peer channel send path (channel_peer.hpp) -/

/-- Observable actions of the send path, in program order: the socket write,
a channel stop with a code, and the completion handler invocation. -/
inductive SendAction where
  | write
  | stop (ec : Code)
  | handler (ec : Code)
  deriving DecidableEq

/-- channel_peer::handle_send: stop the channel on a non-success code, then
invoke the completion handler with that code. -/
def handle_send (ec : Code) : List SendAction :=
  (if ec ≠ Code.success then [SendAction.stop ec] else [])
    ++ [SendAction.handler ec]

/-- channel_peer::send: when serialization yields a null buffer, complete
immediately with bad_alloc and perform no write; otherwise write the buffer
and complete with the write result. The serialized buffer and the write
completion code are inputs of the model. -/
def channel_peer_send (serialized : Option (List Nat)) (writeCode : Code) :
    List SendAction :=
  match serialized with
  | none => handle_send .bad_alloc
  | some _ => SendAction.write :: handle_send writeCode

/-! ## Ping protocol heartbeat (protocol_ping_60001.cpp) -/

/-- Ping protocol state: the expected pong nonce (0 is the `received`
sentinel meaning the last pong arrived) and the protocol stopped flag. -/
structure PingState where
  nonce : Nat
  stopped : Bool
  deriving DecidableEq

/-- Effect of a ping heartbeat handler invocation. -/
inductive PingEffect where
  | nothing
  | stopWith (ec : Code)
  | sendPing
  deriving DecidableEq

/-- protocol_ping_60001::handle_timer: return if stopped; stop with the
timer code if it is an error; stop (passing the timer code, which is
success on expiry) if the expected nonce was not cleared; otherwise send the
next ping. -/
def ping60001_handle_timer (s : PingState) (ec : Code) : PingEffect :=
  if s.stopped then .nothing
  else if ec ≠ Code.success then .stopWith ec
  else if s.nonce ≠ 0 then .stopWith ec
  else .sendPing

/-! ## Connector race (connector.cpp) -/

/-- Connector state: the stopped_ latch, whether a resolve and a socket
connect are outstanding, whether the connect timer is armed, whether a
resolver cancellation has been requested against a pending resolve, and the
accumulated completion-handler invocations. -/
structure ConnectorState where
  stopped : Bool
  resolving : Bool
  connecting : Bool
  timerArmed : Bool
  cancelRequested : Bool
  calls : List Code
  deriving DecidableEq

/-- Events executed on the connector strand: timer expiry (handle_timer with
success), resolve completion (success, cancellation, or failure:
handle_resolve), socket connect completion (do_handle_connect), and a
connector::stop call. -/
inductive ConnectorEv where
  | timerFire
  | resolveOk
  | resolveCancelled
  | resolveErr
  | connectDone (ok : Bool)
  | stopCall
  deriving DecidableEq

/-- One strand step of the connector, translated handler by handler:
- handle_timer: guarded by stopped_; cancels the resolver, latches stopped_,
  invokes the handler with channel_timeout (expiry delivers success);
- handle_resolve (cancelled): invokes the handler with channel_stopped,
  with no stopped_ guard in the source;
- handle_resolve (error): invokes the handler with the mapped error;
- handle_resolve (success): starts the socket connect;
- do_handle_connect: guarded by stopped_; latches stopped_, stops the timer,
  invokes the handler with the connect result;
- connector::stop: guarded by stopped_; cancels the resolver and stops the
  timer without invoking the timer handler. -/
def connector_step (s : ConnectorState) : ConnectorEv → ConnectorState
  | .timerFire =>
    if s.stopped then { s with timerArmed := false }
    else
      { s with
        timerArmed := false
        cancelRequested := s.cancelRequested || s.resolving
        stopped := true
        calls := s.calls ++ [Code.channel_timeout] }
  | .resolveOk => { s with resolving := false, connecting := true }
  | .resolveCancelled =>
    { s with
      resolving := false
      cancelRequested := false
      calls := s.calls ++ [Code.channel_stopped] }
  | .resolveErr =>
    { s with resolving := false, calls := s.calls ++ [Code.resolve_failed] }
  | .connectDone ok =>
    if s.stopped then { s with connecting := false }
    else
      { s with
        connecting := false
        stopped := true
        timerArmed := false
        calls := s.calls ++
          [if ok then Code.success else Code.connect_failed] }
  | .stopCall =>
    if s.stopped then s
    else
      { s with
        cancelRequested := s.cancelRequested || s.resolving
        timerArmed := false }

/-- Whether an event can legally reach the strand in the given state (asio
delivery semantics): the timer fires only while armed, resolve completions
require an outstanding resolve (a cancelled completion additionally requires
a cancellation request), connect completions require an outstanding connect;
stop may be called at any time. -/
def connector_ev_legal (s : ConnectorState) : ConnectorEv → Bool
  | .timerFire => s.timerArmed
  | .resolveOk => s.resolving && !s.cancelRequested
  | .resolveCancelled => s.resolving && s.cancelRequested
  | .resolveErr => s.resolving && !s.cancelRequested
  | .connectDone _ => s.connecting
  | .stopCall => true

/-- Run a sequence of strand events. -/
def connector_run (s : ConnectorState) (evs : List ConnectorEv) :
    ConnectorState :=
  evs.foldl connector_step s

/-- Whether a whole event sequence is legal from the given state. -/
def connector_trace_legal (s : ConnectorState) : List ConnectorEv → Bool
  | [] => true
  | ev :: rest =>
    connector_ev_legal s ev && connector_trace_legal (connector_step s ev) rest

/-- Connector state immediately after connector::connect: stopped_ cleared,
the timer armed, the resolve begun. -/
def connector_connect_init : ConnectorState :=
  { stopped := false
    resolving := true
    connecting := false
    timerArmed := true
    cancelRequested := false
    calls := [] }

/-! ## Outbound batch connect (session_outbound.cpp) -/

/-- Batch state: the count_ member, the number of stop sweeps issued over the
batch connectors, and the accumulated complete() invocations as
(code, channel) pairs (channels modelled by numeric ids). -/
structure BatchState where
  count : Nat
  stopsIssued : Nat
  completions : List (Code × Option Nat)
  deriving DecidableEq

/-- session_outbound::handle_batch, called once per connector completion:
increments count_; on an error-free completion, latches count_ to the batch
size and sweeps stop() over the connectors unless this was the final
completion, then invokes complete with (success, channel); on an error
completion, invokes complete with connect_failed only when this was the
final completion. -/
def handle_batch (batchSize : Nat) (s : BatchState) (ev : Code × Option Nat) :
    BatchState :=
  let count1 := s.count + 1
  let finish := count1 = batchSize
  if ev.1 = Code.success then
    if finish then
      { s with
        count := count1
        completions := s.completions ++ [(Code.success, ev.2)] }
    else
      { count := batchSize
        stopsIssued := s.stopsIssued + 1
        completions := s.completions ++ [(Code.success, ev.2)] }
  else
    if finish then
      { s with
        count := count1
        completions := s.completions ++ [(Code.connect_failed, none)] }
    else { s with count := count1 }

/-- Initial batch state (count_ starts at zero). -/
def batch_init : BatchState := { count := 0, stopsIssued := 0, completions := [] }

/-- Run a batch over the sequence of connector completions. -/
def batch_run (batchSize : Nat) (evs : List (Code × Option Nat)) : BatchState :=
  evs.foldl (handle_batch batchSize) batch_init

/-! ## Manual session retry loop (session_manual.cpp) -/

/-- Outcome of one connect attempt of the manual session loop:
- connectFail: the connector completed with an error other than
  service_stopped (handle_connect arms the retry timer; no handler call);
- connectStopped: the connector completed with service_stopped, or the
  session was found stopped (the handler receives service_stopped and the
  loop ends);
- channelUp: a channel was established and its handshake completed with the
  given code (handle_channel_start notifies the handler on each attempt;
  the channel then stops and handle_channel_stop reconnects). -/
inductive ManualEv where
  | connectFail
  | connectStopped
  | channelUp (hs : Code)
  deriving DecidableEq

/-- The sequence of caller-handler invocations produced by the manual
session connect cycle over a sequence of attempt outcomes. -/
def manual_run : List ManualEv → List Code
  | [] => []
  | .connectFail :: rest => manual_run rest
  | .connectStopped :: _ => [Code.service_stopped]
  | .channelUp hs :: rest => hs :: manual_run rest

/-- Map a channel-establishing attempt to its handler code. -/
def manual_fire : ManualEv → Option Code
  | .channelUp hs => some hs
  | _ => none

/-! ## Concrete inputs for witnesses and counterexamples -/

/-- A concrete outbound channel whose received version nonce is 7. -/
def chan_out : Channel :=
  { nonce := 5, inbound := false, quiet := false
    peer_version_nonce := 7, authority := 1 }

/-- A concrete inbound channel whose received version nonce is 7. -/
def chan_in : Channel :=
  { nonce := 6, inbound := true, quiet := false
    peer_version_nonce := 7, authority := 2 }

/-- A concrete supervisor state holding nonce 7 with loopback disabled. -/
def p2p_with_nonce7 : P2P :=
  { closed := false, enable_loopback := false, nonces := [7]
    inbound_channel_count := 0, total_channel_count := 0, reserved := [] }

/-- A concrete settings instance with ipv6 disabled and empty lists. -/
def settings_ex : NetSettings :=
  { enable_ipv6 := false, services_minimum := 1, invalid_services := 176
    blacklists := [], whitelists := [], friends := [] }

/-- A concrete v6 address item. -/
def item_v6 : AddressItem :=
  { v6 := true, ip := 9, port := 8333, services := 1, timestamp := 0 }

/-- A concrete subscriber table: two handlers on ping, none elsewhere. -/
def subs_ex : Identifier → List Nat :=
  fun i => if i = .ping then [11, 12] else []

/-- A concrete deserializer: the first payload byte, if any. -/
def des_ex : Identifier → Nat → List Nat → Option Nat :=
  fun _ _ d => d.head?

/-! # Theorems -/

/-! ## Helper lemmas -/

theorem two64_value : two64 = 18446744073709551616 := by
  norm_num [two64]

theorem two64_pos : 0 < two64 := by
  rw [two64_value]; omega

theorem dec64_of_pos (x : Nat) (hx : x ≠ 0) (hlt : x < two64) :
    dec64 x = x - 1 := by
  have h64 := two64_value
  have h : x + (two64 - 1) = (x - 1) + 1 * two64 := by omega
  rw [dec64, h, Nat.add_mul_mod_self_right]
  exact Nat.mod_eq_of_lt (by omega)

theorem count_channel_closed (s : P2P) (c : Channel) (h : s.closed = true) :
    s.count_channel c = (Code.service_stopped, s) := by
  simp [P2P.count_channel, h]

theorem count_channel_loopback (s : P2P) (c : Channel)
    (h1 : s.closed = false) (h2 : s.is_loopback c = true) :
    s.count_channel c = (Code.accept_failed, s) := by
  simp [P2P.count_channel, h1, h2]

theorem count_channel_ovf_inbound (s : P2P) (c : Channel)
    (h1 : s.closed = false) (h2 : s.is_loopback c = false)
    (h3 : (c.inbound && (s.inbound_channel_count + 1) % two64 == 0) = true) :
    s.count_channel c = (Code.channel_overflow, s) := by
  simp [P2P.count_channel, h1, h2, h3]

theorem count_channel_ovf_total (s : P2P) (c : Channel)
    (h1 : s.closed = false) (h2 : s.is_loopback c = false)
    (h3 : (c.inbound && (s.inbound_channel_count + 1) % two64 == 0) = false)
    (h4 : (!c.quiet && (s.total_channel_count + 1) % two64 == 0) = true) :
    s.count_channel c = (Code.channel_overflow, s) := by
  simp only [P2P.count_channel, h1, h2, h3, h4]
  simp

theorem count_channel_in_use (s : P2P) (c : Channel)
    (h1 : s.closed = false) (h2 : s.is_loopback c = false)
    (h3 : (c.inbound && (s.inbound_channel_count + 1) % two64 == 0) = false)
    (h4 : (!c.quiet && (s.total_channel_count + 1) % two64 == 0) = false)
    (h5 : s.reserved.contains c.authority = true) :
    s.count_channel c = (Code.address_in_use, s) := by
  have h5m : c.authority ∈ s.reserved := by simpa using h5
  simp [P2P.count_channel, hosts_reserve, h1, h2, h3, h4, h5m]

theorem count_channel_ok (s : P2P) (c : Channel)
    (h1 : s.closed = false) (h2 : s.is_loopback c = false)
    (h3 : (c.inbound && (s.inbound_channel_count + 1) % two64 == 0) = false)
    (h4 : (!c.quiet && (s.total_channel_count + 1) % two64 == 0) = false)
    (h5 : s.reserved.contains c.authority = false) :
    s.count_channel c =
      (Code.success,
        { s with
          reserved := c.authority :: s.reserved
          inbound_channel_count :=
            if c.inbound then (s.inbound_channel_count + 1) % two64
            else s.inbound_channel_count
          total_channel_count :=
            if c.quiet then s.total_channel_count
            else (s.total_channel_count + 1) % two64 }) := by
  simp only [P2P.count_channel, hosts_reserve, h1, h2, h3, h4, h5]
  simp only [Bool.false_eq_true, if_false]
  cases hi : c.inbound <;> cases hq : c.quiet <;> simp [hi, hq]

/-! ## Claim theorems -/

/-- Claim C8: for every address item, settings::excluded holds exactly when
the item is not specified, or disabled, or insufficient, or unsupported, or
peered (in the friends list), or blacklisted, or not whitelisted (the
whitelist being non-empty and not containing the item). -/
theorem settings_excluded_characterization (s : NetSettings)
    (item : AddressItem) :
    s.excluded item = true ↔
      (is_specified item = false
        ∨ s.disabled item = true
        ∨ s.insufficient item = true
        ∨ s.unsupported item = true
        ∨ contains_item s.friends item = true
        ∨ contains_item s.blacklists item = true
        ∨ (s.whitelists.isEmpty = false
            ∧ contains_item s.whitelists item = false)) := by
  simp only [NetSettings.excluded, NetSettings.whitelisted, NetSettings.peered,
    NetSettings.blacklisted, Bool.or_eq_true, Bool.not_eq_true',
    Bool.not_eq_true, Bool.or_eq_false_iff]
  tauto

/-- Claim C8 witness: with ipv6 disabled, a v6 address item is excluded (via
the disabled disjunct of the characterization). -/
theorem settings_excluded_characterization_witness :
    settings_ex.excluded item_v6 = true :=
  (settings_excluded_characterization settings_ex item_v6).mpr
    (Or.inr (Or.inl (by decide)))

/-- Claim C2 counterexample: an outbound channel whose received version nonce
(7) is in the supervisor nonce set, with enable_loopback disabled, is NOT
rejected: count_channel returns success, not accept_failed, because
is_loopback only consults the nonce set for inbound channels. -/
theorem loopback_outbound_not_rejected :
    (p2p_with_nonce7.count_channel chan_out).1 = Code.success
      ∧ Code.success ≠ Code.accept_failed := by
  constructor
  · rfl
  · decide

/-- Claim C2 (amended): an inbound channel whose received version nonce is in
the supervisor nonce set, with enable_loopback disabled and the network not
closed, is rejected by count_channel with accept_failed; the nonce lookup is
skipped (is_loopback is false) for outbound channels or when enable_loopback
is set; the nonce insert is skipped (store_nonce returns true without
modifying the set) for inbound channels or when enable_loopback is set. -/
theorem loopback_rejection_amended (s : P2P) (c : Channel) :
    (s.closed = false → s.enable_loopback = false → c.inbound = true →
      s.nonces.contains c.peer_version_nonce = true →
      (s.count_channel c).1 = Code.accept_failed)
    ∧ (s.enable_loopback = true ∨ c.inbound = false → s.is_loopback c = false)
    ∧ (s.enable_loopback = true ∨ c.inbound = true →
        s.store_nonce c = (true, s)) := by
  refine ⟨?_, ?_, ?_⟩
  · intro h1 h2 h3 h4
    have h4m : c.peer_version_nonce ∈ s.nonces := by simpa using h4
    have hl : s.is_loopback c = true := by
      simp [P2P.is_loopback, h2, h3, h4m]
    rw [count_channel_loopback s c h1 hl]
  · intro h
    rcases h with h | h <;> simp [P2P.is_loopback, h]
  · intro h
    rcases h with h | h <;> simp [P2P.store_nonce, h]

/-- Claim C2 amended witness: the inbound channel with echoed nonce 7 is
rejected with accept_failed in the concrete supervisor state. -/
theorem loopback_rejection_amended_witness :
    (p2p_with_nonce7.count_channel chan_in).1 = Code.accept_failed :=
  (loopback_rejection_amended p2p_with_nonce7 chan_in).1 rfl rfl rfl rfl

/-- Claim C6: at the failing input (heartbeat timer expiry delivering
success while the expected pong nonce 3 is uncleared and the protocol is not
stopped) the code stops the channel with the timer code success, which is
not channel_timeout as the claim requires. -/
theorem ping_heartbeat_stop_code :
    ping60001_handle_timer { nonce := 3, stopped := false } Code.success
        = PingEffect.stopWith Code.success
      ∧ PingEffect.stopWith Code.success
        ≠ PingEffect.stopWith Code.channel_timeout := by
  constructor
  · rfl
  · decide

/-- Claim C1: at the failing interleaving (the connect timer expires while
the DNS resolve is still pending; handle_timer cancels the resolver and the
cancelled resolve handler then runs) the completion handler is invoked
twice - channel_timeout then channel_stopped - because the cancelled-resolve
path of handle_resolve has no stopped_ guard. The trace is legal under the
delivery semantics. -/
theorem connector_handler_invoked_twice :
    connector_trace_legal connector_connect_init
        [ConnectorEv.timerFire, ConnectorEv.resolveCancelled] = true
      ∧ (connector_run connector_connect_init
          [ConnectorEv.timerFire, ConnectorEv.resolveCancelled]).calls
        = [Code.channel_timeout, Code.channel_stopped]
      ∧ (connector_run connector_connect_init
          [ConnectorEv.timerFire, ConnectorEv.resolveCancelled]).calls.length
        = 2 := by
  refine ⟨rfl, rfl, rfl⟩

/-- Claim C9: a null serialization buffer produces no socket write and
completes with bad_alloc (after stopping the channel with bad_alloc); a
non-success write completion stops the channel with that code before the
completion handler receives it; a success completion stops nothing. -/
theorem channel_peer_send_error_handling (buf : List Nat) (w : Code) :
    channel_peer_send none w
        = [SendAction.stop Code.bad_alloc, SendAction.handler Code.bad_alloc]
      ∧ (w ≠ Code.success →
          channel_peer_send (some buf) w
            = [SendAction.write, SendAction.stop w, SendAction.handler w])
      ∧ (w = Code.success →
          channel_peer_send (some buf) w
            = [SendAction.write, SendAction.handler w]) := by
  refine ⟨rfl, ?_, ?_⟩
  · intro h
    simp [channel_peer_send, handle_send, h]
  · intro h
    simp [channel_peer_send, handle_send, h]

/-- Claim C9 witness: at a concrete buffer and the connect_failed write
code, the send path writes, stops with connect_failed, then completes with
connect_failed; the null-buffer path performs no write. -/
theorem channel_peer_send_error_handling_witness :
    channel_peer_send none Code.connect_failed
        = [SendAction.stop Code.bad_alloc, SendAction.handler Code.bad_alloc]
      ∧ channel_peer_send (some [1, 2]) Code.connect_failed
        = [SendAction.write, SendAction.stop Code.connect_failed,
            SendAction.handler Code.connect_failed] :=
  ⟨(channel_peer_send_error_handling [1, 2] Code.connect_failed).1,
    (channel_peer_send_error_handling [1, 2] Code.connect_failed).2.1
      (by decide)⟩

/-- Claim C5: for every message identifier of the dispatch enumeration,
notify returns success without attempting deserialization when the
identifier has no subscriber; otherwise it deserializes with the given
version, returns invalid_message (with no fan-out) when deserialization
fails, and on success fans out (success, message) to every subscriber of
that type. -/
theorem distributor_notify_characterization (subs : Identifier → List Nat)
    (des : Identifier → Nat → List Nat → Option Nat) (id : Identifier)
    (version : Nat) (data : List Nat) (hid : id ≠ Identifier.unknown) :
    ((subs id).isEmpty = true →
        distributor_notify subs des id version data
          = ⟨Code.success, false, []⟩)
      ∧ ((subs id).isEmpty = false →
          (des id version data = none →
            distributor_notify subs des id version data
              = ⟨Code.invalid_message, true, []⟩)
          ∧ (∀ m, des id version data = some m →
              distributor_notify subs des id version data
                = ⟨Code.success, true,
                    (subs id).map (fun h => (h, Code.success, m))⟩)) := by
  refine ⟨?_, ?_⟩
  · intro hemp
    simp [distributor_notify, do_notify, hid, hemp]
  · intro hemp
    refine ⟨?_, ?_⟩
    · intro hdes
      simp [distributor_notify, do_notify, hid, hemp, hdes]
    · intro m hdes
      simp [distributor_notify, do_notify, hid, hemp, hdes]

/-- Claim C5 witness: with two ping subscribers and a head-byte
deserializer, notifying ping with payload [9] fans out to both handlers,
and notifying pong (no subscribers) returns success without
deserialization. -/
theorem distributor_notify_characterization_witness :
    distributor_notify subs_ex des_ex Identifier.ping 70001 [9]
        = ⟨Code.success, true, [(11, Code.success, 9), (12, Code.success, 9)]⟩
      ∧ distributor_notify subs_ex des_ex Identifier.pong 70001 [9]
        = ⟨Code.success, false, []⟩ :=
  ⟨by
    have h := (distributor_notify_characterization subs_ex des_ex
      Identifier.ping 70001 [9] (by decide)).2 (by decide)
    exact h.2 9 rfl,
   (distributor_notify_characterization subs_ex des_ex
      Identifier.pong 70001 [9] (by decide)).1 (by decide)⟩

/-- Claim C3 counterexample: with a batch of two connectors that both
complete without error (the second having begun its socket connect before
being stopped), handle_batch invokes the batch completion handler twice,
refuting delivery exactly once. -/
theorem batch_completion_not_exactly_once :
    (batch_run 2 [(Code.success, some 1), (Code.success, some 2)]).completions
        = [(Code.success, some 1), (Code.success, some 2)]
      ∧ (batch_run 2
          [(Code.success, some 1), (Code.success, some 2)]).completions.length
        = 2 := by
  refine ⟨rfl, rfl⟩

/-- Claim C4: count_channel succeeds exactly when the network is not closed,
the channel is not a loopback, neither applicable 64-bit counter would
overflow, and the authority is not already reserved; each failing check
yields its specific code with the counters unchanged, and success bumps the
inbound counter for inbound channels and the total counter for non-quiet
channels and reserves the authority. -/
theorem count_channel_characterization (s : P2P) (c : Channel) :
    ((s.count_channel c).1 = Code.success ↔
        (s.closed = false ∧ s.is_loopback c = false
          ∧ (c.inbound && (s.inbound_channel_count + 1) % two64 == 0) = false
          ∧ (!c.quiet && (s.total_channel_count + 1) % two64 == 0) = false
          ∧ s.reserved.contains c.authority = false))
      ∧ (s.closed = true → (s.count_channel c).1 = Code.service_stopped)
      ∧ (s.closed = false → s.is_loopback c = true →
          (s.count_channel c).1 = Code.accept_failed)
      ∧ (s.closed = false → s.is_loopback c = false →
          (c.inbound && (s.inbound_channel_count + 1) % two64 == 0) = true →
          (s.count_channel c).1 = Code.channel_overflow)
      ∧ (s.closed = false → s.is_loopback c = false →
          (c.inbound && (s.inbound_channel_count + 1) % two64 == 0) = false →
          (!c.quiet && (s.total_channel_count + 1) % two64 == 0) = true →
          (s.count_channel c).1 = Code.channel_overflow)
      ∧ (s.closed = false → s.is_loopback c = false →
          (c.inbound && (s.inbound_channel_count + 1) % two64 == 0) = false →
          (!c.quiet && (s.total_channel_count + 1) % two64 == 0) = false →
          s.reserved.contains c.authority = true →
          (s.count_channel c).1 = Code.address_in_use)
      ∧ ((s.count_channel c).1 ≠ Code.success →
          (s.count_channel c).2.inbound_channel_count = s.inbound_channel_count
            ∧ (s.count_channel c).2.total_channel_count
              = s.total_channel_count)
      ∧ ((s.count_channel c).1 = Code.success →
          (s.count_channel c).2.inbound_channel_count
              = (if c.inbound then (s.inbound_channel_count + 1) % two64
                  else s.inbound_channel_count)
            ∧ (s.count_channel c).2.total_channel_count
              = (if c.quiet then s.total_channel_count
                  else (s.total_channel_count + 1) % two64)
            ∧ (s.count_channel c).2.reserved = c.authority :: s.reserved) := by
  cases h1 : s.closed
  · cases h2 : s.is_loopback c
    · cases h3 : (c.inbound && (s.inbound_channel_count + 1) % two64 == 0)
      · cases h4 : (!c.quiet && (s.total_channel_count + 1) % two64 == 0)
        · cases h5 : s.reserved.contains c.authority
          · rw [count_channel_ok s c h1 h2 h3 h4 h5]
            simp [h1, h2, h3, h4, h5]
          · rw [count_channel_in_use s c h1 h2 h3 h4 h5]
            simp [h1, h2, h3, h4, h5]
        · rw [count_channel_ovf_total s c h1 h2 h3 h4]
          simp [h1, h2, h3, h4]
      · rw [count_channel_ovf_inbound s c h1 h2 h3]
        simp [h1, h2, h3]
    · rw [count_channel_loopback s c h1 h2]
      simp [h1, h2]
  · rw [count_channel_closed s c h1]
    simp [h1]

/-- Claim C4 witness: in the concrete supervisor state the outbound channel
passes every check, so count_channel returns success, and the total channel
counter is bumped to one while the inbound counter stays zero. -/
theorem count_channel_characterization_witness :
    (p2p_with_nonce7.count_channel chan_out).1 = Code.success
      ∧ (p2p_with_nonce7.count_channel chan_out).2.inbound_channel_count = 0
      ∧ (p2p_with_nonce7.count_channel chan_out).2.total_channel_count = 1 := by
  have hs : (p2p_with_nonce7.count_channel chan_out).1 = Code.success :=
    (count_channel_characterization p2p_with_nonce7 chan_out).1.mpr
      (by refine ⟨rfl, rfl, rfl, ?_, rfl⟩; decide)
  have hc :=
    (count_channel_characterization p2p_with_nonce7 chan_out).2.2.2.2.2.2.2 hs
  refine ⟨hs, ?_, ?_⟩
  · rw [hc.1]; rfl
  · rw [hc.2.1]; decide

/-- Helper: each counter written by count_channel is either the original
value or the original bumped modulo 2^64. -/
theorem count_channel_counter_cases (s : P2P) (c : Channel) :
    ((s.count_channel c).2.inbound_channel_count = s.inbound_channel_count
        ∨ (s.count_channel c).2.inbound_channel_count
          = (s.inbound_channel_count + 1) % two64)
      ∧ ((s.count_channel c).2.total_channel_count = s.total_channel_count
        ∨ (s.count_channel c).2.total_channel_count
          = (s.total_channel_count + 1) % two64) := by
  cases h1 : s.closed
  · cases h2 : s.is_loopback c
    · cases h3 : (c.inbound && (s.inbound_channel_count + 1) % two64 == 0)
      · cases h4 : (!c.quiet && (s.total_channel_count + 1) % two64 == 0)
        · cases h5 : s.reserved.contains c.authority
          · rw [count_channel_ok s c h1 h2 h3 h4 h5]
            constructor
            · cases c.inbound <;> simp
            · cases c.quiet <;> simp
          · rw [count_channel_in_use s c h1 h2 h3 h4 h5]; simp
        · rw [count_channel_ovf_total s c h1 h2 h3 h4]; simp
      · rw [count_channel_ovf_inbound s c h1 h2 h3]; simp
    · rw [count_channel_loopback s c h1 h2]; simp
  · rw [count_channel_closed s c h1]; simp

/-- Helper: each counter written by uncount_channel is either the original
value or the original decremented with 64-bit wrap, the decrement occurring
only under the respective non-zero guard. -/
theorem uncount_channel_counter_cases (s : P2P) (c : Channel) :
    (s.uncount_channel c).reserved = s.reserved.erase c.authority
      ∧ ((s.uncount_channel c).inbound_channel_count = s.inbound_channel_count
        ∨ (c.inbound = true ∧ s.inbound_channel_count ≠ 0
            ∧ (s.uncount_channel c).inbound_channel_count
              = dec64 s.inbound_channel_count))
      ∧ ((s.uncount_channel c).total_channel_count = s.total_channel_count
        ∨ (c.quiet = false ∧ s.total_channel_count ≠ 0
            ∧ (s.uncount_channel c).total_channel_count
              = dec64 s.total_channel_count)) := by
  cases hi : c.inbound <;> cases hq : c.quiet <;>
    simp only [P2P.uncount_channel, hosts_unreserve, hi, hq, Bool.true_and,
      Bool.false_and, Bool.not_true, Bool.not_false, Bool.and_self,
      if_false, if_true, beq_iff_eq]
  · by_cases hz : s.total_channel_count = 0 <;> simp [hz]
  · simp
  · by_cases hz : s.inbound_channel_count = 0
    · simp [hz]
    · by_cases hz2 : s.total_channel_count = 0 <;> simp [hz, hz2]
  · by_cases hz : s.inbound_channel_count = 0 <;> simp [hz]

/-- Helper: one counting operation preserves the 64-bit counter bounds. -/
theorem applyOp_counts_lt (s : P2P) (op : P2POp)
    (h1 : s.inbound_channel_count < two64)
    (h2 : s.total_channel_count < two64) :
    (s.applyOp op).inbound_channel_count < two64
      ∧ (s.applyOp op).total_channel_count < two64 := by
  cases op with
  | count c =>
    have h := count_channel_counter_cases s c
    constructor
    · rcases h.1 with h | h <;> rw [P2P.applyOp, h]
      · exact h1
      · exact Nat.mod_lt _ two64_pos
    · rcases h.2 with h | h <;> rw [P2P.applyOp, h]
      · exact h2
      · exact Nat.mod_lt _ two64_pos
  | uncount c =>
    have h := uncount_channel_counter_cases s c
    constructor
    · rcases h.2.1 with h | h
      · rw [P2P.applyOp, h]; exact h1
      · rw [P2P.applyOp, h.2.2]; exact Nat.mod_lt _ two64_pos
    · rcases h.2.2 with h | h
      · rw [P2P.applyOp, h]; exact h2
      · rw [P2P.applyOp, h.2.2]; exact Nat.mod_lt _ two64_pos

/-- Helper: a sequence of counting operations preserves the counter bounds. -/
theorem runOps_counts_lt (ops : List P2POp) (s : P2P)
    (h1 : s.inbound_channel_count < two64)
    (h2 : s.total_channel_count < two64) :
    (s.runOps ops).inbound_channel_count < two64
      ∧ (s.runOps ops).total_channel_count < two64 := by
  induction ops generalizing s with
  | nil => exact ⟨h1, h2⟩
  | cons op rest ih =>
    have h := applyOp_counts_lt s op h1 h2
    simpa [P2P.runOps, List.foldl_cons] using ih (s.applyOp op) h.1 h.2

/-- Claim C10: uncount_channel always unreserves the channel authority; the
inbound counter decreases only when it is non-zero and the channel is
inbound, the total counter only when it is non-zero and the channel is
non-quiet, each by exactly one; hence the counters never increase on
uncount and, across any sequence of count and uncount operations, stay
below 2^64 (no wrap below zero). -/
theorem uncount_channel_no_underflow (s : P2P) (c : Channel)
    (h1 : s.inbound_channel_count < two64)
    (h2 : s.total_channel_count < two64) :
    (s.uncount_channel c).reserved = s.reserved.erase c.authority
      ∧ (s.uncount_channel c).inbound_channel_count ≤ s.inbound_channel_count
      ∧ (s.uncount_channel c).total_channel_count ≤ s.total_channel_count
      ∧ ((s.uncount_channel c).inbound_channel_count
            ≠ s.inbound_channel_count →
          c.inbound = true ∧ s.inbound_channel_count ≠ 0
            ∧ (s.uncount_channel c).inbound_channel_count
              = s.inbound_channel_count - 1)
      ∧ ((s.uncount_channel c).total_channel_count ≠ s.total_channel_count →
          c.quiet = false ∧ s.total_channel_count ≠ 0
            ∧ (s.uncount_channel c).total_channel_count
              = s.total_channel_count - 1)
      ∧ (∀ ops : List P2POp,
          (s.runOps ops).inbound_channel_count < two64
            ∧ (s.runOps ops).total_channel_count < two64) := by
  have h := uncount_channel_counter_cases s c
  refine ⟨h.1, ?_, ?_, ?_, ?_, fun ops => runOps_counts_lt ops s h1 h2⟩
  · rcases h.2.1 with hc | hc
    · rw [hc]
    · rw [hc.2.2, dec64_of_pos _ hc.2.1 h1]; omega
  · rcases h.2.2 with hc | hc
    · rw [hc]
    · rw [hc.2.2, dec64_of_pos _ hc.2.1 h2]; omega
  · intro hne
    rcases h.2.1 with hc | hc
    · exact absurd hc hne
    · exact ⟨hc.1, hc.2.1, by rw [hc.2.2, dec64_of_pos _ hc.2.1 h1]⟩
  · intro hne
    rcases h.2.2 with hc | hc
    · exact absurd hc hne
    · exact ⟨hc.1, hc.2.1, by rw [hc.2.2, dec64_of_pos _ hc.2.1 h2]⟩

/-- Claim C10 witness: uncounting the inbound channel in the concrete
supervisor state (both counters zero) leaves both counters at zero rather
than wrapping. -/
theorem uncount_channel_no_underflow_witness :
    (p2p_with_nonce7.uncount_channel chan_in).inbound_channel_count ≤ 0
      ∧ (p2p_with_nonce7.uncount_channel chan_in).total_channel_count ≤ 0 :=
  ⟨(uncount_channel_no_underflow p2p_with_nonce7 chan_in
      (by norm_num [p2p_with_nonce7, two64_value])
      (by norm_num [p2p_with_nonce7, two64_value])).2.1,
    (uncount_channel_no_underflow p2p_with_nonce7 chan_in
      (by norm_num [p2p_with_nonce7, two64_value])
      (by norm_num [p2p_with_nonce7, two64_value])).2.2.1⟩

/-- Helper: error completions before the batch is full only advance count_:
no completion handler invocation, no stop sweep. -/
theorem batch_foldl_errors_low (n : Nat) (pre : List (Code × Option Nat)) :
    ∀ (cnt stp : Nat) (cpl : List (Code × Option Nat)),
      (∀ e ∈ pre, e.1 ≠ Code.success) → cnt + pre.length < n →
      pre.foldl (handle_batch n) ⟨cnt, stp, cpl⟩ = ⟨cnt + pre.length, stp, cpl⟩ := by
  induction pre with
  | nil => intro cnt stp cpl _ _; simp
  | cons e rest ih =>
    intro cnt stp cpl herr hlen
    have he : e.1 ≠ Code.success := herr e (by simp)
    have hfin : ¬(cnt + 1 = n) := by
      simp only [List.length_cons] at hlen; omega
    have hstep : handle_batch n ⟨cnt, stp, cpl⟩ e = ⟨cnt + 1, stp, cpl⟩ := by
      simp [handle_batch, he, hfin]
    rw [List.foldl_cons, hstep,
      ih (cnt + 1) stp cpl (fun x hx => herr x (by simp [hx]))
        (by simp only [List.length_cons] at hlen; omega)]
    simp only [List.length_cons]
    congr 1
    omega

/-- Helper: once count_ has been latched at or beyond the batch size, every
further error completion is discarded. -/
theorem batch_foldl_errors_high (n : Nat) (post : List (Code × Option Nat)) :
    ∀ (cnt stp : Nat) (cpl : List (Code × Option Nat)),
      (∀ e ∈ post, e.1 ≠ Code.success) → n ≤ cnt →
      post.foldl (handle_batch n) ⟨cnt, stp, cpl⟩
        = ⟨cnt + post.length, stp, cpl⟩ := by
  induction post with
  | nil => intro cnt stp cpl _ _; simp
  | cons e rest ih =>
    intro cnt stp cpl herr hge
    have he : e.1 ≠ Code.success := herr e (by simp)
    have hfin : ¬(cnt + 1 = n) := by omega
    have hstep : handle_batch n ⟨cnt, stp, cpl⟩ e = ⟨cnt + 1, stp, cpl⟩ := by
      simp [handle_batch, he, hfin]
    rw [List.foldl_cons, hstep,
      ih (cnt + 1) stp cpl (fun x hx => herr x (by simp [hx])) (by omega)]
    simp only [List.length_cons]
    congr 1
    omega

/-- Claim C3 (amended): within a batch in which exactly one connector
completes without error, the batch completion handler is invoked exactly
once, with (success, channel): the error completions before the success
only advance the count_ guard, the success latches count_ to the batch size
and sweeps stop over the connectors (unless it was the final completion, in
which case no sweep is needed), and every error completion after the
success is discarded by the latched guard. -/
theorem batch_first_success_characterization (n : Nat)
    (pre post : List (Code × Option Nat)) (ch : Option Nat)
    (hpre : ∀ e ∈ pre, e.1 ≠ Code.success)
    (hpost : ∀ e ∈ post, e.1 ≠ Code.success)
    (hlen : pre.length + 1 + post.length ≤ n) :
    (batch_run n (pre ++ (Code.success, ch) :: post)).completions
        = [(Code.success, ch)]
      ∧ (batch_run n (pre ++ (Code.success, ch) :: post)).stopsIssued
        = (if pre.length + 1 = n then 0 else 1) := by
  unfold batch_run batch_init
  rw [List.foldl_append,
    batch_foldl_errors_low n pre 0 0 [] hpre (by omega), List.foldl_cons]
  simp only [Nat.zero_add]
  by_cases hfin : pre.length + 1 = n
  · have hstep : handle_batch n ⟨pre.length, 0, []⟩ (Code.success, ch)
        = ⟨pre.length + 1, 0, [(Code.success, ch)]⟩ := by
      simp [handle_batch, hfin]
    rw [hstep,
      batch_foldl_errors_high n post (pre.length + 1) 0 [(Code.success, ch)]
        hpost (by omega)]
    simp [hfin]
  · have hstep : handle_batch n ⟨pre.length, 0, []⟩ (Code.success, ch)
        = ⟨n, 1, [(Code.success, ch)]⟩ := by
      simp [handle_batch, hfin]
    rw [hstep,
      batch_foldl_errors_high n post n 1 [(Code.success, ch)] hpost
        (by omega)]
    simp [hfin]

/-- Claim C3 amended witness: in a batch of three where the second connector
is the only success, the handler fires exactly once with that channel and
one stop sweep is issued. -/
theorem batch_first_success_characterization_witness :
    (batch_run 3 [(Code.connect_failed, none), (Code.success, some 5),
        (Code.channel_stopped, none)]).completions = [(Code.success, some 5)]
      ∧ (batch_run 3 [(Code.connect_failed, none), (Code.success, some 5),
        (Code.channel_stopped, none)]).stopsIssued = 1 := by
  have h := batch_first_success_characterization 3 [(Code.connect_failed, none)]
    [(Code.channel_stopped, none)] (some 5) (by decide) (by decide)
    (by decide)
  exact ⟨h.1, by simpa using h.2⟩

/-- Helper: with no service_stopped attempt in the trace, the manual session
handler fires once per established connection, with the handshake code. -/
theorem manual_run_no_stop (trace : List ManualEv) :
    ManualEv.connectStopped ∉ trace →
      manual_run trace = trace.filterMap manual_fire := by
  induction trace with
  | nil => intro; simp [manual_run]
  | cons e rest ih =>
    intro hn
    cases e with
    | connectFail =>
      simp only [manual_run, List.filterMap_cons, manual_fire]
      exact ih (fun h => hn (List.mem_cons_of_mem _ h))
    | connectStopped => exact absurd (List.mem_cons_self _ _) hn
    | channelUp hs =>
      simp only [manual_run, List.filterMap_cons, manual_fire]
      rw [ih (fun h => hn (List.mem_cons_of_mem _ h))]

/-- Helper: a service_stopped attempt ends the loop after notifying the
handler with service_stopped. -/
theorem manual_run_append_stopped (post : List ManualEv) :
    ∀ pre : List ManualEv, ManualEv.connectStopped ∉ pre →
      manual_run (pre ++ ManualEv.connectStopped :: post)
        = pre.filterMap manual_fire ++ [Code.service_stopped] := by
  intro pre
  induction pre with
  | nil => intro; simp [manual_run]
  | cons e rest ih =>
    intro hn
    cases e with
    | connectFail =>
      simp only [List.cons_append, manual_run, List.filterMap_cons,
        manual_fire, List.append_eq]
      exact ih (fun h => hn (List.mem_cons_of_mem _ h))
    | connectStopped => exact absurd (List.mem_cons_self _ _) hn
    | channelUp hs =>
      simp only [List.cons_append, manual_run, List.filterMap_cons,
        manual_fire, List.append_eq]
      rw [ih (fun h => hn (List.mem_cons_of_mem _ h))]

/-- Claim C7 (amended): for every manual-session connect with a handler, the
handler fires on every completed connection attempt of the retry cycle -
once per established connection with its handshake code, unconditionally on
each reconnect (the handler returns no value, so no returned-bool gate
exists) - and once with service_stopped when the cycle ends by session
stop. -/
theorem manual_notify_every_attempt (trace : List ManualEv) :
    (ManualEv.connectStopped ∉ trace →
        manual_run trace = trace.filterMap manual_fire)
      ∧ (∀ pre post : List ManualEv,
          trace = pre ++ ManualEv.connectStopped :: post →
          ManualEv.connectStopped ∉ pre →
          manual_run trace
            = pre.filterMap manual_fire ++ [Code.service_stopped]) := by
  refine ⟨manual_run_no_stop trace, ?_⟩
  intro pre post heq hn
  rw [heq]
  exact manual_run_append_stopped post pre hn

/-- Claim C7 amended witness: success, a silent connect failure, then a
handshake failure produce exactly the two per-connection notifications. -/
theorem manual_notify_every_attempt_witness :
    manual_run [ManualEv.channelUp Code.success, ManualEv.connectFail,
        ManualEv.channelUp Code.protocol_violation]
      = [Code.success, Code.protocol_violation] := by
  have h := (manual_notify_every_attempt [ManualEv.channelUp Code.success,
    ManualEv.connectFail, ManualEv.channelUp Code.protocol_violation]).1
    (by decide)
  simpa using h

/-- Claim C7 counterexample: the manual session caller handler (which
returns no value, so in particular never returned true) fires again on the
reconnect that follows the first successful connection: two successful
connections produce two handler invocations. -/
theorem manual_handler_fires_on_reconnect :
    manual_run [ManualEv.channelUp Code.success, ManualEv.channelUp Code.success]
        = [Code.success, Code.success]
      ∧ (manual_run [ManualEv.channelUp Code.success,
          ManualEv.channelUp Code.success]).length = 2 := by
  refine ⟨rfl, rfl⟩

end BitcoinNetwork
